import Mathlib

/-!
Verification of the DSE_2025 emergency-braking pipeline.

Shallow embedding of the relevant Python services:
  * `DM`: `distance-monitor.py` (sensor fusion, velocity estimation, queue consumer)
  * `EB`: `emergency_brake.py` (per-vehicle decision route)
  * `CD`: `central-director.py` (rule evaluation, brake publication, fleet state)

Python floats are modelled as rationals `ℚ`; JSON null / absent optional
values as `Option`; the per-vehicle dictionaries as functions
`String → Option _`.  Network calls (the location-tracker lookup, the
RabbitMQ publish) are modelled by passing their observable result as an
explicit argument / returning the published messages as a list.
-/

namespace DM

/-- Sensor payload of one inbound message, after JSON extraction: one
optional reading per sensor field, exactly the fields read by
`calculate_distance_meters`.  A key that is absent and a key that is
present with value `null` are treated identically by the source
(`"k" in d and d["k"] is not None`), so both are `none` here. -/
structure SensorData where
  ultrasonic_front_cm : Option ℚ
  ultrasonic_rear_cm : Option ℚ
  radar_object_distance_m : Option ℚ
  camera_front_estimate_m : Option ℚ
  camera_rear_estimate_m : Option ℚ
  lidar_front_estimate_m : Option ℚ
  lidar_rear_estimate_m : Option ℚ
deriving Repr, DecidableEq

/-- `list.append(v)` guarded by `if "k" in d and d["k"] is not None`. -/
def optApp (l : List ℚ) (o : Option ℚ) : List ℚ :=
  match o with
  | some v => l ++ [v]
  | none => l

/-- `calculate_distance_meters(data)` from `distance-monitor.py`:
ultrasonic readings are divided by 100 (cm → m), radar contributes to the
front list only, camera and lidar to both; each side is averaged if its
list is non-empty, else `None`. -/
def calculate_distance_meters (data : SensorData) : Option ℚ × Option ℚ :=
  let front_distances : List ℚ := []
  let front_distances := optApp front_distances (data.ultrasonic_front_cm.map (fun c => c / 100))
  let front_distances := optApp front_distances data.radar_object_distance_m
  let front_distances := optApp front_distances data.camera_front_estimate_m
  let front_distances := optApp front_distances data.lidar_front_estimate_m
  let rear_distances : List ℚ := []
  let rear_distances := optApp rear_distances (data.ultrasonic_rear_cm.map (fun c => c / 100))
  let rear_distances := optApp rear_distances data.camera_rear_estimate_m
  let rear_distances := optApp rear_distances data.lidar_rear_estimate_m
  (if front_distances = [] then none
     else some (front_distances.sum / front_distances.length),
   if rear_distances = [] then none
     else some (rear_distances.sum / rear_distances.length))

/-- The non-null contributions to the front side, in the spec's terms:
ultrasonic centimeters divided by 100, radar, camera, lidar. -/
def frontContribs (data : SensorData) : List ℚ :=
  [data.ultrasonic_front_cm.map (fun c => c / 100), data.radar_object_distance_m,
   data.camera_front_estimate_m, data.lidar_front_estimate_m].reduceOption

/-- The non-null contributions to the rear side: ultrasonic centimeters
divided by 100, camera, lidar (radar never contributes to the rear). -/
def rearContribs (data : SensorData) : List ℚ :=
  [data.ultrasonic_rear_cm.map (fun c => c / 100),
   data.camera_rear_estimate_m, data.lidar_rear_estimate_m].reduceOption

/-- One entry of the `last_readings` dict: previous fused front/rear
values and the sample timestamp (seconds, as a rational). -/
structure LastReading where
  front : Option ℚ
  rear : Option ℚ
  timestamp : ℚ
deriving Repr, DecidableEq

/-- The `last_readings` dict, keyed by vehicle id. -/
def Store : Type := String → Option LastReading

/-- The empty `last_readings` dict. -/
def emptyStore : Store := fun _ => none

/-- `calculate_velocity(vehicle_id, front, rear, timestamp)` from
`distance-monitor.py`: returns the velocity pair (front m/s, rear m/s)
and the updated `last_readings` store.  A side's rate is computed only
when the vehicle has a previous entry, both that side's previous and
current values are non-null, and the elapsed time is strictly positive;
the previous entry is overwritten unconditionally at the end. -/
def calculate_velocity (store : Store) (vehicle_id : String)
    (front rear : Option ℚ) (timestamp : ℚ) :
    (Option ℚ × Option ℚ) × Store :=
  let front_mps : Option ℚ :=
    match store vehicle_id with
    | some prev =>
      match prev.front, front with
      | some pf, some f =>
        if timestamp - prev.timestamp > 0 then
          some ((f - pf) / (timestamp - prev.timestamp))
        else none
      | _, _ => none
    | none => none
  let rear_mps : Option ℚ :=
    match store vehicle_id with
    | some prev =>
      match prev.rear, rear with
      | some pr, some r =>
        if timestamp - prev.timestamp > 0 then
          some ((r - pr) / (timestamp - prev.timestamp))
        else none
      | _, _ => none
    | none => none
  ((front_mps, rear_mps),
   fun v => if v = vehicle_id then some ⟨front, rear, timestamp⟩ else store v)

/-- One inbound sensor message after JSON decoding: `vehicle_id` (`none`
when the key is missing), raw `timestamp` string (`none` when missing),
and the sensor fields. -/
structure SensorMsg where
  vehicle_id : Option String
  timestamp : Option String
  sensors : SensorData

/-- The processed-distance message built by `send_processed_data`. -/
structure ProcessedMsg where
  vehicle_id : String
  front_distance_m : Option ℚ
  rear_distance_m : Option ℚ
  front_velocity_mps : Option ℚ
  rear_velocity_mps : Option ℚ
  timestamp : ℚ
deriving Repr, DecidableEq

/-- Timestamp resolution in `process_sensor_data`, lines 202-213 of
`distance-monitor.py`.  `parse` models `datetime.fromisoformat` composed
with the `Z → +00:00` rewrite (`none` = raises `ValueError`).  Both
fallback paths evaluate `datetime.now(datetime.timezone.utc)`, which
raises `AttributeError` because `datetime` is the class
`datetime.datetime` (imported via `from datetime import datetime`) and
has no attribute `timezone`; the `AttributeError` raised inside the
`except` handler propagates out of `process_sensor_data`, so both the
missing-timestamp and the unparsable-timestamp case are errors. -/
def resolve_timestamp (parse : String → Option ℚ) (ts : Option String) :
    Except Unit ℚ :=
  match ts with
  | some s =>
    match parse s with
    | some t => Except.ok t
    | none => Except.error ()
  | none => Except.error ()

/-- `process_sensor_data(data)` from `distance-monitor.py` (vehicle-filter
configuration omitted: no filter set).  Missing `vehicle_id` returns
`False` — no output, no exception (`Except.ok (none, store)`); a failing
timestamp resolution propagates as an exception (`Except.error`);
otherwise fusion and velocity estimation run and a processed message is
produced. -/
def process_sensor_data (parse : String → Option ℚ) (store : Store)
    (data : SensorMsg) : Except Unit (Option ProcessedMsg × Store) :=
  match data.vehicle_id with
  | none => Except.ok (none, store)
  | some vid =>
    match resolve_timestamp parse data.timestamp with
    | Except.error e => Except.error e
    | Except.ok ts =>
      let fused := calculate_distance_meters data.sensors
      let res := calculate_velocity store vid fused.1 fused.2 ts
      Except.ok (some ⟨vid, fused.1, fused.2, res.1.1, res.1.2, ts⟩, res.2)

/-- A consumer's acknowledgement decision for one delivered message. -/
inductive Outcome
  | ack
  | nackRequeue
deriving Repr, DecidableEq

/-- `process_sensor_message` from `distance-monitor.py`, the RabbitMQ
consumer callback: `body = none` models an unparsable payload
(`json.JSONDecodeError` branch, which acks); a processing exception is
also caught and acked; on success the message is acked and the processed
output forwarded.  No path negatively-acknowledges. -/
def process_sensor_message (parse : String → Option ℚ) (store : Store)
    (body : Option SensorMsg) : Outcome × Option ProcessedMsg × Store :=
  match body with
  | none => (Outcome.ack, none, store)
  | some data =>
    match process_sensor_data parse store data with
    | Except.error _ => (Outcome.ack, none, store)
    | Except.ok (out, store') => (Outcome.ack, out, store')

end DM

namespace EB

/-- Reasons of `emergency_brake.py` line 181 / 184 (the literal strings
are "CRITICAL: distance < 20m and closing rate > 3m/s" and
"WARNING: distance < 40m and closing rate > 5m/s"). -/
inductive Reason
  | critical
  | warning
deriving Repr, DecidableEq

/-- Response of the `/processed-data` route: HTTP 400
"Missing required fields", 200 `emergency_brake_triggered`, or 200
`safe`. -/
inductive Response
  | badRequest
  | triggered (reason : Reason)
  | safe
deriving Repr, DecidableEq

/-- JSON body of a `/processed-data` request, the fields the route reads.
`vehicle_id` is already defaulted with `VEHICLE_ID` by `data.get`, so
`none` means the key was present with value null. -/
structure Input where
  vehicle_id : Option String
  front_distance_m : Option ℚ
  front_velocity_mps : Option ℚ
deriving Repr, DecidableEq

/-- `receive_processed_data` from `emergency_brake.py`: rejects null
vehicle id, distance or velocity with a 400; otherwise applies rule 1
(`front_distance < 20 and front_velocity < -3`) then rule 2
(`front_distance < 40 and front_velocity < -5`), first match winning.
The returned `Bool` records whether the brake actions ran
(`send_brake_signal_to_datamock` followed by `publish_brake_success`). -/
def receive_processed_data (data : Input) : Response × Bool :=
  match data.vehicle_id, data.front_distance_m, data.front_velocity_mps with
  | some _, some front_distance, some front_velocity =>
    if front_distance < 20 ∧ front_velocity < -3 then
      (Response.triggered Reason.critical, true)
    else if front_distance < 40 ∧ front_velocity < -5 then
      (Response.triggered Reason.warning, true)
    else (Response.safe, false)
  | _, _, _ => (Response.badRequest, false)

end EB

namespace CD

/-- Trigger reasons of `evaluate_rules` in `central-director.py` (the
literal strings are "DM: <20m & Δ<-3m/s", "DM: <40m & Δ<-5m/s" and
"Deviation: LT vs DM >20m (...)"). -/
inductive Reason
  | critNear
  | warnNear
  | deviation
deriving Repr, DecidableEq

/-- Events written by `save_event` on the paths modelled here:
`save_event("distance_deviation", ...)` inside rule 3 and
`save_event("emergency_break", ...)` inside `trigger_emergency_break`. -/
inductive Event
  | distance_deviation (lt dm : ℚ)
  | emergency_break (vehicle : Option String) (reason : Option Reason)
deriving Repr, DecidableEq

/-- `evaluate_rules(dm_data)` from `central-director.py`.  The
`lt_distance` argument is the value `get_lt_distance(vehicle_id)` would
return (`none` on any lookup failure); the source only performs that
lookup after rules 1 and 2 both failed, which is why the deviation event
can only appear on that path.  Returns ((triggered, reason), saved
events); the source's no-trigger reason is the empty string, modelled as
`none`. -/
def evaluate_rules (distance delta lt_distance : Option ℚ) :
    (Bool × Option Reason) × List Event :=
  match distance, delta with
  | some d, some dl =>
    if d < 20 ∧ dl < -3 then ((true, some Reason.critNear), [])
    else if d < 40 ∧ dl < -5 then ((true, some Reason.warnNear), [])
    else
      match lt_distance with
      | some lt =>
        if |lt - d| > 20 then
          ((true, some Reason.deviation), [Event.distance_deviation lt d])
        else ((false, none), [])
      | none => ((false, none), [])
  | _, _ => ((false, none), [])

/-- One entry of the `vehicle_details` dict. -/
structure VehicleDetails where
  brake : Bool
  front_distance : Option ℚ
  rear_distance : Option ℚ
  front_distance_change : Option ℚ
  rear_distance_change : Option ℚ
deriving Repr, DecidableEq

/-- The entry created when a vehicle id is first seen. -/
def initDetails : VehicleDetails :=
  ⟨false, none, none, none, none⟩

/-- The `vehicle_details` dict, keyed by vehicle id. -/
def Details : Type := String → Option VehicleDetails

/-- The empty `vehicle_details` dict. -/
def emptyDetails : Details := fun _ => none

/-- Python `x or 0` applied to an optional number: null (and 0.0, whose
value is unchanged) coerce to 0. -/
def orZero : Option ℚ → ℚ
  | some v => v
  | none => 0

/-- A processed-distance message as read by `process_message`'s Distance
Monitor branch (all five keys are present in messages built by
`send_processed_data`; the values may be null). -/
structure DMMessage where
  vehicle_id : Option String
  front_distance_m : Option ℚ
  rear_distance_m : Option ℚ
  front_velocity_mps : Option ℚ
  rear_velocity_mps : Option ℚ
deriving Repr, DecidableEq

/-- The `delta` computed by `process_message`:
`(front_velocity_mps or 0) - (rear_velocity_mps or 0)`. -/
def dm_delta (data : DMMessage) : ℚ :=
  orZero data.front_velocity_mps - orZero data.rear_velocity_mps

/-- A brake command published to the `brake_commands` queue by
`trigger_emergency_break` (`command: "brake"`, plus a timestamp not
modelled). -/
structure BrakeCommand where
  vehicle_id : Option String
  reason : Option Reason
deriving Repr, DecidableEq

/-- `trigger_emergency_break(vehicle_id, reason)` with the RabbitMQ
connection available (the failure path only saves an error event):
publishes one brake command and saves one `emergency_break` event. -/
def trigger_emergency_break (vehicle : Option String) (reason : Option Reason) :
    List BrakeCommand × List Event :=
  ([⟨vehicle, reason⟩], [Event.emergency_break vehicle reason])

/-- The `vehicle_details` update of `process_message` lines 350-357:
creates the entry if absent, then stores the message's distances and —
lines 356 and 357 — stores `(front_velocity_mps or 0)` into BOTH
`front_distance_change` and `rear_distance_change` (line 357 reads
`front_velocity_mps`, not `rear_velocity_mps`).  Skipped when `vehicle`
is falsy (null or empty string). -/
def update_details (st : Details) (data : DMMessage) : Details :=
  match data.vehicle_id with
  | some vid =>
    if vid.isEmpty then st
    else fun v =>
      if v = vid then
        some { (st vid).getD initDetails with
               front_distance := data.front_distance_m
               rear_distance := data.rear_distance_m
               front_distance_change := some (orZero data.front_velocity_mps)
               rear_distance_change := some (orZero data.front_velocity_mps) }
      else st v
  | none => st

/-- The Distance-Monitor branch of `process_message` (taken whenever both
`front_distance_m` and `front_velocity_mps` keys are present, which holds
for every processed-distance message): updates `vehicle_details`,
evaluates the rules on `(front_distance_m, delta)` and, when triggered,
runs `trigger_emergency_break`.  Returns the new dict, the published
brake commands and the saved events. -/
def process_message (st : Details) (data : DMMessage) (lt_distance : Option ℚ) :
    Details × List BrakeCommand × List Event :=
  let st' := update_details st data
  let ev := evaluate_rules data.front_distance_m (some (dm_delta data)) lt_distance
  if ev.1.1 then
    let tr := trigger_emergency_break data.vehicle_id ev.1.2
    (st', tr.1, ev.2 ++ tr.2)
  else (st', [], ev.2)

/-- `eb_callback`'s acknowledgement decision (`central-director.py` lines
105-123): the whole body runs under `try`, and ANY exception — in
particular `json.loads` failing on an unparsable payload — is answered
with `basic_nack(requeue=True)`; only a fully processed message is
acked. -/
def eb_callback_outcome (body_parses : Bool) : DM.Outcome :=
  if body_parses then DM.Outcome.ack else DM.Outcome.nackRequeue

/-- `event_callback`'s acknowledgement decision (lines 125-134): same
structure as `eb_callback` — an unparsable payload is negatively
acknowledged with `requeue=True`. -/
def event_callback_outcome (body_parses : Bool) : DM.Outcome :=
  if body_parses then DM.Outcome.ack else DM.Outcome.nackRequeue

/-- One row of the `/api/vehicles` response, built by
`get_vehicles_status` from the dict entry. -/
structure VehicleStatus where
  vehicle_id : String
  brake : Bool
  front_distance : Option ℚ
  rear_distance : Option ℚ
  front_distance_change : Option ℚ
  rear_distance_change : Option ℚ
deriving Repr, DecidableEq

/-- The `/api/vehicles` snapshot entry for one vehicle id, as built by
`get_vehicles_status`.  The route is a pure read of `vehicle_details`:
it takes no clock input and compares nothing against the current time. -/
def get_vehicle_status (st : Details) (vid : String) : Option VehicleStatus :=
  (st vid).map (fun d =>
    ⟨vid, d.brake, d.front_distance, d.rear_distance,
     d.front_distance_change, d.rear_distance_change⟩)

/-! ### Timed model of the braking flag

`eb_callback` (lines 110-117) sets `brake := True` for the message's
vehicle and starts `threading.Timer(10.0, ...)` whose action sets
`brake := False` for that vehicle.  No expiry timestamp is stored
anywhere, and `get_vehicles_status` reads the flag without consulting a
clock.  We model wall-clock time explicitly: the state carries the
pending timers as (absolute fire time, vehicle id) pairs, and before any
observation or message at time `now` every timer whose fire time has been
reached runs its action (the idealisation of `threading.Timer`: each
timer fires once, 10 seconds after it was started). -/

/-- `vehicle_details` plus the pending `threading.Timer`s, each recorded
as (absolute fire time, vehicle id). -/
structure TimedState where
  details : Details
  timers : List (ℚ × String)

/-- The initial state: empty dict, no timers. -/
def initTimed : TimedState :=
  ⟨emptyDetails, []⟩

/-- The timer action `vehicle_details[vehicle_id].update({'brake': False})`:
sets the flag of an existing entry to false. -/
def clearBrake (st : Details) (vid : String) : Details :=
  fun v =>
    if v = vid then (st vid).map (fun d => { d with brake := false })
    else st v

/-- Run every pending timer whose fire time is ≤ `now` (each sets its
vehicle's flag to false) and drop it from the pending list. -/
def fireDue (now : ℚ) (st : TimedState) : TimedState :=
  ⟨(st.timers.filter (fun p => decide (p.1 ≤ now))).foldl
     (fun d p => clearBrake d p.2) st.details,
   st.timers.filter (fun p => !decide (p.1 ≤ now))⟩

/-- A brake-status message for `vid` processed by `eb_callback` at time
`now`: the entry is created if absent, its flag is set true, and a fresh
10-second timer is started (the source never cancels or reuses an
existing timer).  `process_message` on the payload only saves an event
and is omitted. -/
def ebMsgAt (now : ℚ) (vid : String) (st : TimedState) : TimedState :=
  let st := fireDue now st
  ⟨fun v =>
     if v = vid then some { (st.details vid).getD initDetails with brake := true }
     else st.details v,
   st.timers ++ [(now + 10, vid)]⟩

/-- The braking flag `get_vehicles_status` reports for `vid` when queried
at time `now` (the route itself is clock-blind; `now` only determines
which timers have already fired). -/
def readBrakeAt (now : ℚ) (vid : String) (st : TimedState) : Option Bool :=
  ((fireDue now st).details vid).map (fun d => d.brake)

end CD

/-! ## Claims -/

/-- Claim C4: for every sensor-reading map, fusion returns for each side
the arithmetic mean of the present, non-null readings contributing to
that side (ultrasonic centimeters divided by 100, radar contributing to
the front), and returns null — never zero — for a side with zero
non-null contributions (the result is null exactly when the contribution
list is empty). -/
theorem c4_fused_mean_of_contribs (d : DM.SensorData) :
    ((DM.calculate_distance_meters d).1 =
       if DM.frontContribs d = [] then none
       else some ((DM.frontContribs d).sum / (DM.frontContribs d).length))
    ∧ ((DM.calculate_distance_meters d).2 =
       if DM.rearContribs d = [] then none
       else some ((DM.rearContribs d).sum / (DM.rearContribs d).length))
    ∧ ((DM.calculate_distance_meters d).1 = none ↔ DM.frontContribs d = [])
    ∧ ((DM.calculate_distance_meters d).2 = none ↔ DM.rearContribs d = []) := by
  obtain ⟨uf, ur, ra, cf, cr, lf, lr⟩ := d
  cases uf <;> cases ur <;> cases ra <;> cases cf <;> cases cr <;> cases lf <;>
    cases lr <;>
    simp [DM.calculate_distance_meters, DM.frontContribs, DM.rearContribs,
      DM.optApp, List.reduceOption]

/-- Claim C5: for every vehicle the first observed fused sample yields a
null rate on both sides; thereafter, for each side independently, the
rate equals (current − previous)/elapsed exactly when both the current
and stored previous value for that side are non-null and the elapsed time
is strictly positive, and is null otherwise; the single previous sample
is overwritten on every observation and other vehicles are untouched. -/
theorem c5_velocity_estimate (store : DM.Store) (v : String)
    (front rear : Option ℚ) (ts : ℚ) :
    (store v = none → (DM.calculate_velocity store v front rear ts).1 = (none, none))
    ∧ (∀ prev pf f, store v = some prev → prev.front = some pf → front = some f →
        ts - prev.timestamp > 0 →
        (DM.calculate_velocity store v front rear ts).1.1 =
          some ((f - pf) / (ts - prev.timestamp)))
    ∧ (∀ prev, store v = some prev →
        (prev.front = none ∨ front = none ∨ ¬ts - prev.timestamp > 0) →
        (DM.calculate_velocity store v front rear ts).1.1 = none)
    ∧ (∀ prev pr r, store v = some prev → prev.rear = some pr → rear = some r →
        ts - prev.timestamp > 0 →
        (DM.calculate_velocity store v front rear ts).1.2 =
          some ((r - pr) / (ts - prev.timestamp)))
    ∧ (∀ prev, store v = some prev →
        (prev.rear = none ∨ rear = none ∨ ¬ts - prev.timestamp > 0) →
        (DM.calculate_velocity store v front rear ts).1.2 = none)
    ∧ ((DM.calculate_velocity store v front rear ts).2 v = some ⟨front, rear, ts⟩)
    ∧ (∀ v', v' ≠ v → (DM.calculate_velocity store v front rear ts).2 v' = store v') := by
  refine ⟨fun h => by simp [DM.calculate_velocity, h], ?_, ?_, ?_, ?_, ?_, ?_⟩
  · intro prev pf f hp hpf hf ht
    simp [DM.calculate_velocity, hp, hpf, hf, ht]
  · intro prev hp hcase
    rcases hcase with h | h | h
    · simp [DM.calculate_velocity, hp, h]
    · cases hpf : prev.front <;> simp [DM.calculate_velocity, hp, h, hpf]
    · cases hpf : prev.front <;> cases hf : front <;>
        simp [DM.calculate_velocity, hp, hpf, hf, h]
  · intro prev pr r hp hpr hr ht
    simp [DM.calculate_velocity, hp, hpr, hr, ht]
  · intro prev hp hcase
    rcases hcase with h | h | h
    · simp [DM.calculate_velocity, hp, h]
    · cases hpr : prev.rear <;> simp [DM.calculate_velocity, hp, h, hpr]
    · cases hpr : prev.rear <;> cases hr : rear <;>
        simp [DM.calculate_velocity, hp, hpr, hr, h]
  · simp [DM.calculate_velocity]
  · intro v' hv'
    simp [DM.calculate_velocity, hv']

/-- A one-entry `last_readings` store used to instantiate
`c5_velocity_estimate` on a concrete second sample. -/
def c5_store : DM.Store :=
  fun v => if v = "V1" then some ⟨some 45, none, 0⟩ else none

/-- Witness for C5: vehicle V1's first sample was front 45 m at t = 0 and
rear null; observing front 38 m at t = 1 gives front rate (38−45)/1 = −7
and a null rear rate, by `c5_velocity_estimate`. -/
theorem c5_velocity_estimate_witness :
    (DM.calculate_velocity c5_store "V1" (some 38) none 1).1.1 = some (-7)
    ∧ (DM.calculate_velocity c5_store "V1" (some 38) none 1).1.2 = none := by
  have h := c5_velocity_estimate c5_store "V1" (some 38) none 1
  obtain ⟨-, h2, -, -, h5, -, -⟩ := h
  constructor
  · have := h2 ⟨some 45, none, 0⟩ 45 38 (by simp [c5_store]) rfl rfl (by norm_num)
    rw [this]; norm_num
  · exact h5 ⟨some 45, none, 0⟩ (by simp [c5_store]) (Or.inl rfl)

/-- Claim C10: for every inbound sensor message (with a vehicle id, so
that processing reaches the timestamp step) whose timestamp field is
absent or not ISO-8601 parsable, sensor processing raises an exception —
the current-time fallback `datetime.now(datetime.timezone.utc)` itself
raises `AttributeError` — rather than substituting the current time, so
no processed-distance output is produced; on the queue path the message
is then acknowledged and dropped, with the store unchanged. -/
theorem c10_bad_timestamp_raises (parse : String → Option ℚ)
    (store : DM.Store) (msg : DM.SensorMsg) (vid : String)
    (hv : msg.vehicle_id = some vid)
    (ht : msg.timestamp = none ∨ ∃ s, msg.timestamp = some s ∧ parse s = none) :
    DM.process_sensor_data parse store msg = Except.error ()
    ∧ DM.process_sensor_message parse store (some msg) =
        (DM.Outcome.ack, none, store) := by
  have hr : DM.resolve_timestamp parse msg.timestamp = Except.error () := by
    rcases ht with h | ⟨s, hs, hp⟩
    · simp [DM.resolve_timestamp, h]
    · simp [DM.resolve_timestamp, hs, hp]
  refine ⟨?_, ?_⟩
  · simp [DM.process_sensor_data, hv, hr]
  · simp [DM.process_sensor_message, DM.process_sensor_data, hv, hr]

/-- A sensor payload with every reading null. -/
def noSensors : DM.SensorData :=
  ⟨none, none, none, none, none, none, none⟩

/-- Witness for C10: a message for V1 whose timestamp string no parser
accepts is an error in `process_sensor_data` and is acked and dropped on
the queue path, by `c10_bad_timestamp_raises`. -/
theorem c10_bad_timestamp_raises_witness :
    DM.process_sensor_data (fun _ => none) DM.emptyStore
        ⟨some "V1", some "not-a-timestamp", noSensors⟩ = Except.error ()
    ∧ DM.process_sensor_message (fun _ => none) DM.emptyStore
        (some ⟨some "V1", some "not-a-timestamp", noSensors⟩) =
        (DM.Outcome.ack, none, DM.emptyStore) :=
  c10_bad_timestamp_raises (fun _ => none) DM.emptyStore
    ⟨some "V1", some "not-a-timestamp", noSensors⟩ "V1" rfl
    (Or.inr ⟨"not-a-timestamp", rfl, rfl⟩)

/-- Counterexample for C7: the claim says no consumer
negatively-acknowledges a malformed message with requeue, but the central
director's brake-status and event consumers answer an unparsable payload
with `basic_nack(requeue=True)`. -/
theorem c7_counter_cd_nacks_malformed :
    CD.eb_callback_outcome false = DM.Outcome.nackRequeue
    ∧ CD.event_callback_outcome false = DM.Outcome.nackRequeue := by
  constructor <;> rfl

/-- Claim C7 as amended: the distance-monitor queue consumer acknowledges
every message, malformed or not (so malformed sensor messages are never
redelivered), but the central director's two consumers
negatively-acknowledge a malformed message with requeue, so on those
queues a malformed message IS redelivered. -/
theorem c7_amended_ack_policy (parse : String → Option ℚ) (store : DM.Store)
    (body : Option DM.SensorMsg) :
    (DM.process_sensor_message parse store body).1 = DM.Outcome.ack
    ∧ CD.eb_callback_outcome false = DM.Outcome.nackRequeue
    ∧ CD.event_callback_outcome false = DM.Outcome.nackRequeue
    ∧ CD.eb_callback_outcome true = DM.Outcome.ack
    ∧ CD.event_callback_outcome true = DM.Outcome.ack := by
  refine ⟨?_, rfl, rfl, rfl, rfl⟩
  cases body with
  | none => rfl
  | some msg =>
    cases h : DM.process_sensor_data parse store msg with
    | error e => simp [DM.process_sensor_message, h]
    | ok out => simp [DM.process_sensor_message, h]

/-- Claim C9, evaluated at the failing input: a processed-distance
message for V1 with front velocity 1 m/s and rear velocity 2 m/s; the
resulting `/api/vehicles` entry reports `rear_distance_change = 1` (the
FRONT velocity — line 357 of `central-director.py` stores
`front_velocity_mps` into `rear_distance_change`) although the message's
rear velocity is 2. -/
theorem c9_rear_change_uses_front_velocity :
    (CD.get_vehicle_status
        (CD.process_message CD.emptyDetails
          ⟨some "V1", some 30, some 25, some 1, some 2⟩ none).1 "V1").map
        (fun s => (s.front_distance_change, s.rear_distance_change)) =
      some (some 1, some 1) := by
  simp [CD.process_message, CD.update_details, CD.get_vehicle_status,
    CD.evaluate_rules, CD.dm_delta, CD.orZero, CD.emptyDetails,
    CD.trigger_emergency_break, CD.initDetails,
    show "V1".isEmpty = false from rfl]
  norm_num

/-- A processed-distance message that fires rule 1 (front distance 10 m,
delta (−5) − 0 = −5). -/
def c1_msg : CD.DMMessage :=
  ⟨some "V1", some 10, none, some (-5), some 0⟩

/-- Counterexample for C1: the central director has no cooldown state at
all — processing the same triggering message twice publishes two
BrakeCommands, not exactly one; the second trigger is not suppressed. -/
theorem c1_counter_two_triggers_two_commands :
    ((CD.process_message CD.emptyDetails c1_msg none).2.1 ++
      (CD.process_message
        (CD.process_message CD.emptyDetails c1_msg none).1 c1_msg none).2.1).length
      = 2 := by
  norm_num [CD.process_message, CD.update_details, CD.evaluate_rules,
    CD.dm_delta, CD.orZero, CD.trigger_emergency_break, c1_msg]

/-- Claim C1 as amended: there is no COOLDOWN / COMMAND_SENT state
machine in the code; every triggered decision publishes exactly one
BrakeCommand regardless of the current per-vehicle state, so n triggered
decisions for the same vehicle publish n commands however close together
they arrive. -/
theorem c1_amended_every_trigger_publishes (st : CD.Details)
    (msg : CD.DMMessage) (lt : Option ℚ)
    (h : (CD.evaluate_rules msg.front_distance_m
            (some (CD.dm_delta msg)) lt).1.1 = true) :
    (CD.process_message st msg lt).2.1.length = 1 := by
  simp [CD.process_message, CD.trigger_emergency_break, h]

/-- Witness for C1's amended theorem: the rule-1 message `c1_msg`
triggers, and processing it on the empty state publishes exactly one
command. -/
theorem c1_amended_every_trigger_publishes_witness :
    (CD.process_message CD.emptyDetails c1_msg none).2.1.length = 1 :=
  c1_amended_every_trigger_publishes CD.emptyDetails c1_msg none
    (by norm_num [CD.evaluate_rules, CD.dm_delta, CD.orZero, c1_msg])

/-- A processed-distance message with front rate 0 (not closing) but rear
velocity 10, so the central director's delta is −10. -/
def c2_msg : CD.DMMessage :=
  ⟨some "V1", some 19, none, some 0, some 10⟩

/-- Counterexample for C2: the claim says the rate input to rules 1-2 is
the front rate, and that the result is triggered with the critical reason
iff d < 20 and the front rate closes faster than 3 m/s.  On `c2_msg` the
front rate is 0 — not closing at all, ¬(0 < −3) — yet the central
director triggers rule 1 and publishes a brake command, because its rate
input is front velocity minus rear velocity = −10. -/
theorem c2_counter_rate_is_not_front_rate :
    (CD.process_message CD.emptyDetails c2_msg none).2.1 =
      [⟨some "V1", some CD.Reason.critNear⟩]
    ∧ c2_msg.front_velocity_mps = some 0 ∧ ¬((0 : ℚ) < -3) := by
  refine ⟨?_, by rfl, by norm_num⟩
  norm_num [CD.process_message, CD.update_details, CD.evaluate_rules,
    CD.dm_delta, CD.orZero, CD.trigger_emergency_break, c2_msg]

/-- Claim C2 as amended: in the per-vehicle emergency-brake service the
rate input is the front rate and the claim holds as stated — rules in
order, first match wins, strict comparisons, critical iff d < 20 ∧ r < −3,
warning iff rule 1 failed ∧ d < 40 ∧ r < −5, d = 20.0 never fires rule 1,
d = 19.999 with a qualifying rate does.  The central director applies the
same ordered strict rules, but its rate input is front velocity minus
rear velocity (nulls coerced to 0), not the front rate alone. -/
theorem c2_amended_ordered_strict_rules (vid : String) (d r dl : ℚ)
    (lt : Option ℚ) (st : CD.Details) (msg : CD.DMMessage) :
    ((EB.receive_processed_data ⟨some vid, some d, some r⟩).1 =
        EB.Response.triggered EB.Reason.critical ↔ d < 20 ∧ r < -3)
    ∧ ((EB.receive_processed_data ⟨some vid, some d, some r⟩).1 =
        EB.Response.triggered EB.Reason.warning ↔
          ¬(d < 20 ∧ r < -3) ∧ d < 40 ∧ r < -5)
    ∧ ((EB.receive_processed_data ⟨some vid, some 20, some r⟩).1 ≠
        EB.Response.triggered EB.Reason.critical)
    ∧ (r < -3 →
        (EB.receive_processed_data ⟨some vid, some (19999/1000), some r⟩).1 =
          EB.Response.triggered EB.Reason.critical)
    ∧ ((CD.evaluate_rules (some d) (some dl) lt).1.2 = some CD.Reason.critNear ↔
        d < 20 ∧ dl < -3)
    ∧ ((CD.evaluate_rules (some d) (some dl) lt).1.2 = some CD.Reason.warnNear ↔
        ¬(d < 20 ∧ dl < -3) ∧ d < 40 ∧ dl < -5)
    ∧ (CD.dm_delta msg =
        CD.orZero msg.front_velocity_mps - CD.orZero msg.rear_velocity_mps)
    ∧ ((CD.process_message st msg lt).2.1.length =
        if (CD.evaluate_rules msg.front_distance_m
              (some (CD.dm_delta msg)) lt).1.1 then 1 else 0) := by
  refine ⟨?_, ?_, ?_, ?_, ?_, ?_, rfl, ?_⟩
  · simp only [EB.receive_processed_data]
    split_ifs with h1 h2
    · simp [h1]
    · simp [h1]
    · simp [h1]
  · simp only [EB.receive_processed_data]
    split_ifs with h1 h2
    · simp [h1]
    · simp [h1, h2]
    · simp [h1, h2]
  · simp only [EB.receive_processed_data]
    split_ifs with h1 h2
    · exact absurd h1.1 (by norm_num)
    · simp
    · simp
  · intro hr
    have h20 : (19999 : ℚ)/1000 < 20 := by norm_num
    simp [EB.receive_processed_data, h20, hr]
  · simp only [CD.evaluate_rules]
    split_ifs with h1 h2
    · simp [h1]
    · simp [h1, h2]
    · cases lt with
      | none => simp [h1]
      | some L => by_cases h3 : |L - d| > 20 <;> simp [h1, h3]
  · simp only [CD.evaluate_rules]
    split_ifs with h1 h2
    · simp [h1]
    · simp [h1, h2]
    · cases lt with
      | none => simp [h1, h2]
      | some L => by_cases h3 : |L - d| > 20 <;> simp [h1, h2, h3]
  · simp only [CD.process_message]
    split_ifs with h <;> simp [CD.trigger_emergency_break, h]

/-- Witness for C2's amended theorem: at distance 19.999 m and front rate
−4 m/s the emergency-brake service triggers the critical rule. -/
theorem c2_amended_ordered_strict_rules_witness :
    (EB.receive_processed_data ⟨some "V1", some (19999/1000), some (-4)⟩).1 =
      EB.Response.triggered EB.Reason.critical := by
  have h := c2_amended_ordered_strict_rules "V1" 0 (-4) 0 none
    CD.emptyDetails c2_msg
  exact h.2.2.2.1 (by norm_num)

/-- A processed-distance message with a null front velocity but rear
velocity 5, so the central director's delta is 0 − 5 = −5. -/
def c6_msg : CD.DMMessage :=
  ⟨some "V1", some 19, none, none, some 5⟩

/-- Counterexample for C6: the claim says a null front rate
short-circuits rules 1-2 to not-triggered with no brake command, but the
central director substitutes 0 for the missing rate
(`front_velocity_mps or 0`); on `c6_msg` (front rate null, rear velocity
5) the delta is −5, rule 1 fires, and a brake command IS published. -/
theorem c6_counter_null_rate_still_triggers :
    c6_msg.front_velocity_mps = none
    ∧ (CD.process_message CD.emptyDetails c6_msg none).2.1 =
        [⟨some "V1", some CD.Reason.critNear⟩] := by
  refine ⟨rfl, ?_⟩
  norm_num [CD.process_message, CD.update_details, CD.evaluate_rules,
    CD.dm_delta, CD.orZero, CD.trigger_emergency_break, c6_msg]

/-- Claim C6 as amended: in the central director a null front distance
does short-circuit to not-triggered with no command published; a null
front (or rear) velocity is instead coerced to 0 inside the delta, so a
decision with a null front rate can still trigger.  The emergency-brake
service does not short-circuit at all: it rejects a null front distance
or null front velocity as an error (HTTP 400) and performs no brake
action. -/
theorem c6_amended_null_handling (st : CD.Details) (msg : CD.DMMessage)
    (lt : Option ℚ) (vid : String) (d r : ℚ) :
    (msg.front_distance_m = none → (CD.process_message st msg lt).2.1 = [])
    ∧ (msg.front_velocity_mps = none →
        CD.dm_delta msg = -CD.orZero msg.rear_velocity_mps)
    ∧ (EB.receive_processed_data ⟨some vid, none, some r⟩ =
        (EB.Response.badRequest, false))
    ∧ (EB.receive_processed_data ⟨some vid, some d, none⟩ =
        (EB.Response.badRequest, false)) := by
  refine ⟨?_, ?_, rfl, rfl⟩
  · intro h
    simp [CD.process_message, CD.evaluate_rules, h]
  · intro h
    simp [CD.dm_delta, CD.orZero, h]

/-- Witness for C6's amended theorem: a message with null front distance
publishes nothing, and the emergency-brake service answers a null front
distance with a 400. -/
theorem c6_amended_null_handling_witness :
    (CD.process_message CD.emptyDetails
        ⟨some "V1", none, none, some (-9), some 0⟩ none).2.1 = []
    ∧ EB.receive_processed_data ⟨some "V1", none, some (-9)⟩ =
        (EB.Response.badRequest, false) := by
  have h := c6_amended_null_handling CD.emptyDetails
    ⟨some "V1", none, none, some (-9), some 0⟩ none "V1" 0 (-9)
  exact ⟨h.1 rfl, h.2.2.1⟩

/-- Counterexample for C8: the claim says the deviation case is logged
regardless of the trigger outcome, in particular also when rule 1 has
already triggered.  With distance 10, delta −10 and a tracker distance of
100 (deviation 90 > 20), rule 1 fires first and `evaluate_rules` returns
early: no `distance_deviation` event is saved. -/
theorem c8_counter_deviation_not_logged_after_rule1 :
    CD.evaluate_rules (some 10) (some (-10)) (some 100) =
      ((true, some CD.Reason.critNear), [])
    ∧ |(100 : ℚ) - 10| > 20 := by
  constructor
  · norm_num [CD.evaluate_rules]
  · rw [abs_of_nonneg] <;> norm_num

/-- Claim C8 as amended: the deviation check runs only when rules 1 and 2
both failed to match; in that case, if a tracker distance is available
and differs from the fused distance by more than 20 m, the result is
triggered with the deviation reason and a deviation event is logged (the
logging coincides with rule 3 firing); when rule 1 matches, nothing is
logged and the reason is rule 1's. -/
theorem c8_amended_deviation_only_when_rules_fail (d dl L : ℚ) :
    ((d < 20 ∧ dl < -3) →
      CD.evaluate_rules (some d) (some dl) (some L) =
        ((true, some CD.Reason.critNear), []))
    ∧ (¬(d < 20 ∧ dl < -3) → ¬(d < 40 ∧ dl < -5) → |L - d| > 20 →
      CD.evaluate_rules (some d) (some dl) (some L) =
        ((true, some CD.Reason.deviation), [CD.Event.distance_deviation L d]))
    ∧ (¬(d < 20 ∧ dl < -3) → ¬(d < 40 ∧ dl < -5) → ¬|L - d| > 20 →
      CD.evaluate_rules (some d) (some dl) (some L) = ((false, none), [])) := by
  refine ⟨?_, ?_, ?_⟩
  · intro h1
    simp [CD.evaluate_rules, h1]
  · intro h1 h2 h3
    simp [CD.evaluate_rules, h1, h2, h3]
  · intro h1 h2 h3
    simp [CD.evaluate_rules, h1, h2, h3]

/-- Witness for C8's amended theorem: distance 30 m, delta −4 (neither
rule 1 nor rule 2 matches), tracker distance 60 m: deviation 30 > 20, so
the result is the deviation trigger with its logged event. -/
theorem c8_amended_deviation_witness :
    CD.evaluate_rules (some 30) (some (-4)) (some 60) =
      ((true, some CD.Reason.deviation), [CD.Event.distance_deviation 60 30]) := by
  have h := c8_amended_deviation_only_when_rules_fail 30 (-4) 60
  exact h.2.1 (by norm_num) (by norm_num)
    (by rw [show (60:ℚ) - 30 = 30 by norm_num, abs_of_nonneg] <;> norm_num)

/-- Counterexample for C3: brake-status messages for V1 arrive at t = 0
and t = 5; under the claim the stored expiry would be 5 + 10 = 15 and the
flag still true at t = 12, but the code's per-message 10-second timer
started at t = 0 has already fired and cleared the flag: the read at
t = 12 reports false although 12 < 15. -/
theorem c3_counter_timer_beats_expiry :
    CD.readBrakeAt 12 "V1" (CD.ebMsgAt 5 "V1" (CD.ebMsgAt 0 "V1" CD.initTimed)) =
      some false
    ∧ (12 : ℚ) < 5 + 10 := by
  constructor
  · simp [CD.readBrakeAt, CD.ebMsgAt, CD.fireDue, CD.initTimed, CD.clearBrake,
      CD.emptyDetails, CD.initDetails,
      show ¬(10 : ℚ) ≤ 5 by norm_num,
      show (10 : ℚ) ≤ 12 by norm_num,
      show ¬(15 : ℚ) ≤ 12 by norm_num,
      show ¬(5 : ℚ) + 10 ≤ 12 by norm_num,
      show ¬(0 : ℚ) + 10 ≤ 5 by norm_num,
      show (0 : ℚ) + 10 ≤ 12 by norm_num]
  · norm_num

/-- Claim C3 as amended: the braking flag is set true when a brake-status
message arrives and cleared by a dedicated 10-second `threading.Timer`
started per message; no expiry timestamp is stored and reads return the
stored flag without comparing the current time.  Consequently the flag is
NOT "true iff now < last-set-time + 10": after two messages at t0 and t1
(the second inside the first's window), any read at or after t0 + 10
reports false, even at times before t1 + 10. -/
theorem c3_amended_timer_clears_flag (t0 t1 tr : ℚ) (v : String)
    (h1 : t1 < t0 + 10) (h2 : t0 + 10 ≤ tr) :
    CD.readBrakeAt tr v (CD.ebMsgAt t1 v (CD.ebMsgAt t0 v CD.initTimed)) =
      some false := by
  have h1' : ¬t0 + 10 ≤ t1 := not_le.mpr h1
  by_cases h3 : t1 + 10 ≤ tr <;>
    simp [CD.readBrakeAt, CD.ebMsgAt, CD.fireDue, CD.initTimed, CD.clearBrake,
      CD.emptyDetails, CD.initDetails, h1', h2, h3]

/-- Witness for C3's amended theorem: messages at t = 0 and t = 7, read
at t = 11: the flag is already false. -/
theorem c3_amended_timer_clears_flag_witness :
    CD.readBrakeAt 11 "V2" (CD.ebMsgAt 7 "V2" (CD.ebMsgAt 0 "V2" CD.initTimed)) =
      some false :=
  c3_amended_timer_clears_flag 0 7 11 "V2" (by norm_num) (by norm_num)
